import Mathlib

/-
Verification of the i18n resolution engine (crates i18n-loader and i18n-lang).

The development shallowly embeds the resolution layer of src/i18n-loader/src/lib.rs
(Locales, Locale, Query, Message, AttrCache) and the language-tag normalization of
src/i18n-lang/src/lib.rs. The external Fluent formatting engine (crate fluent-bundle)
is modelled from the spec's contract: format(pattern, args) -> (string, errors).
-/

deriving instance DecidableEq for Except

namespace I18n

/-- Arguments for pattern formatting: models fluent's FluentArgs as an association
list from argument name to (string) value. -/
abbrev FluentArgs := List (String × String)

/-- Models fluent's ReferenceKind: the kind of an unresolved reference. -/
inductive ReferenceKind where
  | messageRef (id : String) (attr : Option String)
  | termRef (id : String) (attr : Option String)
  | variableRef (id : String)
deriving DecidableEq, Repr

/-- Models fluent's ResolverError. -/
inductive ResolverError where
  | reference (kind : ReferenceKind)
  | noValue (id : String)
  | cyclic
deriving DecidableEq, Repr

/-- Models fluent's FluentError. -/
inductive FluentError where
  | resolverError (e : ResolverError)
  | parserError
  | overriding (id : String)
deriving DecidableEq, Repr

/-- One element of a Fluent pattern: literal text, a variable placeable, or a
message-reference placeable. -/
inductive PatternElem where
  | text (s : String)
  | varRef (id : String)
  | msgRef (id : String)
deriving DecidableEq, Repr

/-- A Fluent pattern is a sequence of elements. -/
abbrev Pattern := List PatternElem

/-- A declared attribute of a Fluent message: its id and its value pattern. -/
structure Attribute where
  id : String
  value : Pattern
deriving DecidableEq, Repr

/-- A Fluent message: id, optional main value pattern, and declared attributes. -/
structure FluentMessage where
  id : String
  value : Option Pattern
  attributes : List Attribute
deriving DecidableEq, Repr

/-- Models the fluent FluentBundle as the store of messages of one locale. -/
structure FluentBundle where
  messages : List FluentMessage
deriving DecidableEq, Repr

/-- Looks a message up by id, as the fluent bundle's get_message does. -/
def FluentBundle.get_message (b : FluentBundle) (id : String) : Option FluentMessage :=
  b.messages.find? (fun m => m.id == id)

/-- The literal text of a pattern, used when a message reference resolves. -/
def literalText (p : Pattern) : String :=
  String.join (p.map (fun el =>
    match el with
    | .text s => s
    | .varRef _ => ""
    | .msgRef _ => ""))

/-- Unicode FIRST STRONG ISOLATE, emitted by the fluent formatter around placeables. -/
def fsi : String := String.mk [Char.ofNat 0x2068]

/-- Unicode POP DIRECTIONAL ISOLATE, closing an isolated placeable. -/
def pdi : String := String.mk [Char.ofNat 0x2069]

/-- Modelled from the spec: the external pattern-formatting engine is exposed only via
a format(pattern, args) contract returning the formatted string and the list of
formatting errors. One pattern element is formatted here: text is copied verbatim; a
variable placeable substitutes the supplied argument (wrapped in directional
isolates, as the fluent formatter does) or reports an unresolved variable reference;
a message-reference placeable resolves one level deep against the bundle or reports
an unresolved message reference. -/
def formatElem (b : FluentBundle) (args : Option FluentArgs) : PatternElem → String × List FluentError
  | .text s => (s, [])
  | .varRef id =>
    match args.bind (fun a => a.lookup id) with
    | some v => (fsi ++ v ++ pdi, [])
    | none =>
      (fsi ++ "\x7b$" ++ id ++ "\x7d" ++ pdi,
       [FluentError.resolverError (.reference (.variableRef id))])
  | .msgRef id =>
    match b.get_message id with
    | some m =>
      match m.value with
      | some p => (fsi ++ literalText p ++ pdi, [])
      | none =>
        (fsi ++ "\x7b" ++ id ++ "\x7d" ++ pdi, [FluentError.resolverError (.noValue id)])
    | none =>
      (fsi ++ "\x7b" ++ id ++ "\x7d" ++ pdi,
       [FluentError.resolverError (.reference (.messageRef id none))])

/-- Modelled from the spec: format(pattern, args) concatenates the formatted elements
and accumulates their errors in order. -/
def FluentBundle.format_pattern (b : FluentBundle) (p : Pattern)
    (args : Option FluentArgs) : String × List FluentError :=
  (String.join (p.map (fun el => (formatElem b args el).1)),
   (p.map (fun el => (formatElem b args el).2)).flatten)

/-- Mirrors Locale of src/i18n-loader/src/lib.rs: it owns the bundle of one language
(the Arc reference counting is ownership plumbing with no observable effect here). -/
structure Locale where
  bundle : FluentBundle
deriving DecidableEq, Repr

/-- Mirrors Query of src/i18n-loader/src/lib.rs: message id, main arguments,
per-attribute arguments, and the with_fallback flag. -/
structure Query where
  id : String
  args : FluentArgs
  attr_args : List (String × FluentArgs)
  with_fallback : Bool
deriving DecidableEq, Repr

/-- Mirrors Query::new. -/
def Query.new (id : String) : Query :=
  { id := id, args := [], attr_args := [], with_fallback := false }

/-- Mirrors FluentArgs::set: replaces the value of an existing key or adds the pair. -/
def argsSet (args : FluentArgs) (id v : String) : FluentArgs :=
  match args with
  | [] => [(id, v)]
  | (k, w) :: rest => if k == id then (k, v) :: rest else (k, w) :: argsSet rest id v

/-- Mirrors Query::with_arg. -/
def Query.with_arg (q : Query) (id v : String) : Query :=
  { q with args := argsSet q.args id v }

/-- Sets one argument inside the entry of one attribute, creating the entry if
absent: mirrors the entry(attr).or_default().set(id, value) of Query::with_attr_arg. -/
def attrArgsSet (m : List (String × FluentArgs)) (attr id v : String) :
    List (String × FluentArgs) :=
  match m with
  | [] => [(attr, argsSet [] id v)]
  | (k, a) :: rest =>
    if k == attr then (k, argsSet a id v) :: rest else (k, a) :: attrArgsSet rest attr id v

/-- Mirrors Query::with_attr_arg. -/
def Query.with_attr_arg (q : Query) (attr id v : String) : Query :=
  { q with attr_args := attrArgsSet q.attr_args attr id v }

/-- Mirrors Query::with_fallback. -/
def Query.set_with_fallback (q : Query) (enable_fallback : Bool) : Query :=
  { q with with_fallback := enable_fallback }

/-- Mirrors AttrCache of src/i18n-loader/src/lib.rs. -/
structure AttrCache where
  entry_id : String
  attr_id : String
  value : Option String
  bundle : FluentBundle
deriving DecidableEq, Repr

/-- Mirrors Message of src/i18n-loader/src/lib.rs; the attrs HashMap is embedded as
an association list keyed by attribute id. -/
structure Message where
  id : String
  value : String
  attrs : List (String × AttrCache)
deriving DecidableEq, Repr

/-- Mirrors the matches! test used by Locale::query to classify an error as a
missing-variable reference. -/
def isVariableReferenceError : FluentError → Bool
  | .resolverError (.reference (.variableRef _)) => true
  | _ => false

/-- The per-attribute step of the loop in Locale::query (src/i18n-loader/src/lib.rs
lines 206 to 258). The first component is the AttrCache the loop inserts; the second
component is the loop's local_errors vector. In the source, local_errors is a local
of the loop body that is never merged into the accumulated errors, so Locale.query
below keeps only the first component, exactly as the source does. -/
def Locale.resolveAttr (l : Locale) (qid : String)
    (attr_args : List (String × FluentArgs)) (attr : Attribute) :
    AttrCache × List FluentError :=
  match attr_args.lookup attr.id with
  | some args =>
    let r := l.bundle.format_pattern attr.value (some args)
    ({ entry_id := qid, attr_id := attr.id, value := some r.1, bundle := l.bundle }, r.2)
  | none =>
    let r := l.bundle.format_pattern attr.value none
    let even_more_local_errors := r.2
    if even_more_local_errors.isEmpty then
      ({ entry_id := qid, attr_id := attr.id, value := some r.1, bundle := l.bundle }, [])
    else
      let only_missing_attr_args := even_more_local_errors.all isVariableReferenceError
      ({ entry_id := qid, attr_id := attr.id, value := none, bundle := l.bundle },
       if only_missing_attr_args then [] else even_more_local_errors)

/-- Mirrors Locale::query (src/i18n-loader/src/lib.rs lines 182 to 269): absent
message id short-circuits with a single message-reference error; otherwise the main
value is formatted with the query's main arguments (an id-echoing placeholder stands
in when the message has no value), every declared attribute is resolved into an
AttrCache, and the result is Err exactly when the accumulated error list is
non-empty. Only main-value formatting writes to the accumulated list; each
attribute's local errors are dropped by the source. -/
def Locale.query (l : Locale) (q : Query) : Except (List FluentError) Message :=
  match l.bundle.get_message q.id with
  | none =>
    .error [FluentError.resolverError (.reference (.messageRef q.id none))]
  | some msg =>
    let mainResult :=
      match msg.value with
      | some pattern => l.bundle.format_pattern pattern (some q.args)
      | none => ("<" ++ q.id ++ ">", [])
    let errors := mainResult.2
    let attrs := msg.attributes.map (fun attr =>
      (attr.id, (l.resolveAttr q.id q.attr_args attr).1))
    if errors.isEmpty then
      .ok { id := q.id, value := mainResult.1, attrs := attrs }
    else
      .error errors

/-- Mirrors AttrCache::query (src/i18n-loader/src/lib.rs lines 387 to 425). The Rust
method takes the handle by mutable reference but never writes any field, so the
embedding threads the (unchanged) handle through as the second component. -/
def AttrCache.query (c : AttrCache) (args : Option FluentArgs) :
    Except (List FluentError) String × AttrCache :=
  match c.value with
  | some value => (.ok value, c)
  | none =>
    match c.bundle.get_message c.entry_id with
    | none =>
      (.error [FluentError.resolverError (.reference (.messageRef c.entry_id none))], c)
    | some msg =>
      match msg.attributes.find? (fun attr => attr.id == c.attr_id) with
      | none =>
        (.error [FluentError.resolverError
          (.reference (.messageRef c.entry_id (some c.attr_id)))], c)
      | some this_attr =>
        let r := c.bundle.format_pattern this_attr.value args
        if r.2.isEmpty then (.ok r.1, c) else (.error r.2, c)

/-- Models unic_langid's LanguageIdentifier restricted to the primary language
subtag and the optional region subtag (scripts and variants play no role in the
claims); Display joins the subtags with a hyphen. -/
structure LanguageIdentifier where
  language : String
  region : Option String
deriving BEq, DecidableEq, Repr

/-- Models LanguageIdentifier's Display / to_string: subtags joined with "-". -/
def LanguageIdentifier.asString (li : LanguageIdentifier) : String :=
  match li.region with
  | some region => li.language ++ "-" ++ region
  | none => li.language

/-- Mirrors Locales of src/i18n-loader/src/lib.rs. The locales HashMap is an
association list keyed by language identifier; the on_error function pointer is
modelled by its presence alone, with query below recording each invocation and its
argument, since a fn(&[FluentError]) returns unit and cannot affect the result. -/
structure Locales where
  locales : List (LanguageIdentifier × Locale)
  fallback_lang : LanguageIdentifier
  on_error : Option Unit
deriving DecidableEq

/-- Mirrors Locales::new. -/
def Locales.new (fallback_lang : LanguageIdentifier) (on_error : Option Unit) : Locales :=
  { locales := [], fallback_lang := fallback_lang, on_error := on_error }

/-- The locale Locales::query selects: the entry for the requested language, or the
entry for the fallback language when the requested one is absent; none models the
expect panic of line 125 when the fallback itself has no entry. -/
def Locales.selectedLocale (ls : Locales) (lang : LanguageIdentifier) : Option Locale :=
  match ls.locales.lookup lang with
  | some locale => some locale
  | none => ls.locales.lookup ls.fallback_lang

/-- Mirrors Locales::query (src/i18n-loader/src/lib.rs lines 114 to 135): select the
locale (falling back silently, panicking - modelled as none - if even the fallback
is absent), delegate to Locale::query, and if on_error is set and the result is Err,
invoke the observer with the error slice. The second component of the returned pair
records the observer invocations, each with the argument it received. -/
def Locales.query (ls : Locales) (lang : LanguageIdentifier) (q : Query) :
    Option (Except (List FluentError) Message × List (List FluentError)) :=
  match ls.selectedLocale lang with
  | none => none
  | some locale =>
    let query_result := locale.query q
    let on_error_calls :=
      match ls.on_error, query_result with
      | some _, .error errs => [errs]
      | _, _ => []
    some (query_result, on_error_calls)

/-- True when the second list is an initial segment of the first: the prefix test
that underlies the match step of Rust's str::split. -/
def charsLeadWith : List Char → List Char → Bool
  | _, [] => true
  | [], _ :: _ => false
  | c :: cs, d :: ds => c == d && charsLeadWith cs ds

/-- Drops the first n characters. -/
def charsDrop : Nat → List Char → List Char
  | 0, cs => cs
  | _ + 1, [] => []
  | n + 1, _ :: cs => charsDrop n cs

/-- Scanning step of Rust's str::split for a non-empty separator: at each position,
either the separator matches (emit the piece gathered so far, in reverse, and resume
after the separator) or the character joins the current piece. The fuel argument
strictly exceeds the remaining length, so it never runs out. -/
def rustSplitAux (sep : List Char) : Nat → List Char → List Char → List (List Char)
  | 0, _, acc => [acc.reverse]
  | fuel + 1, s, acc =>
    match s with
    | [] => [acc.reverse]
    | c :: cs =>
      if charsLeadWith (c :: cs) sep then
        acc.reverse :: rustSplitAux sep fuel (charsDrop (sep.length - 1) cs) []
      else
        rustSplitAux sep fuel cs (c :: acc)

/-- Models Rust's str::split with a string pattern: splits at each non-overlapping
occurrence of the separator, keeping empty pieces; an empty separator yields an
empty piece, every character, and an empty piece, as Rust does. -/
def rustSplit (s sep : String) : List String :=
  if sep.toList.isEmpty then
    "" :: (s.toList.map (fun c => String.mk [c]) ++ [""])
  else
    (rustSplitAux sep.toList (s.toList.length + 1) s.toList []).map String.mk

/-- Models Rust's str::to_lowercase restricted to simple per-character mapping. -/
def strToLower (s : String) : String := String.mk (s.toList.map Char.toLower)

/-- Models Rust's str::to_uppercase restricted to simple per-character mapping. -/
def strToUpper (s : String) : String := String.mk (s.toList.map Char.toUpper)

/-- Mirrors the Lang struct of src/i18n-lang/src/lib.rs. -/
structure Lang where
  id : String
  name : String
  flag : String
  dir : String
deriving DecidableEq, Repr

/-- Modelled from the spec: the langid_to_name lookup table of the i18n-lang crate
(its module file is not under src/); the spec places the static name table out of
scope, so a representative fragment covering the languages exercised here stands in,
with the empty string as the fallback for unknown tags. -/
def langid_to_name (langid : String) : String :=
  if langid == "en" then "English"
  else if langid == "hr" then "Croatian"
  else if langid == "de" then "German"
  else ""

/-- Modelled from the spec: the langid_to_flag lookup table of the i18n-lang crate
(its module file is not under src/); a representative fragment mapping a region
subtag to its flag glyph, none for unknown regions. -/
def langid_to_flag (region : String) : Option String :=
  if region == "US" then some "🇺🇸"
  else if region == "HR" then some "🇭🇷"
  else none

/-- Modelled from the spec: the langid_to_dir lookup table of the i18n-lang crate
(its module file is not under src/); a representative fragment, with "ltr" as the
default direction as in the table of the macros crate. -/
def langid_to_dir (langid : String) : String :=
  if langid == "ar" then "rtl" else "ltr"

/-- Mirrors the From LanguageIdentifier implementation for Lang
(src/i18n-lang/src/lib.rs lines 27 to 62): render the identifier to a string, pick
the splitter (underscore if present, else hyphen if present, else the whole string
itself), split, lower-case the first part, upper-case the optional second part, and
join them with a hyphen for the id. -/
def Lang.ofLangid (value : LanguageIdentifier) : Lang :=
  let langid := value.asString
  let splitter :=
    if langid.toList.contains '_' then "_"
    else if langid.toList.contains '-' then "-"
    else langid
  let parts := rustSplit langid splitter
  let lang := strToLower (parts.headD "")
  let region := (parts.drop 1).head?.map strToUpper
  let full_langid :=
    match region with
    | some region => lang ++ "-" ++ region
    | none => lang
  { id := full_langid
    name := langid_to_name lang
    flag := ((region.map langid_to_flag).join).getD ""
    dir := langid_to_dir lang }

/-- An error reported by format_pattern comes from one of the pattern's elements. -/
theorem mem_format_pattern_errors {b : FluentBundle} {p : Pattern}
    {args : Option FluentArgs} {e : FluentError}
    (h : e ∈ (b.format_pattern p args).2) :
    ∃ el ∈ p, e ∈ (formatElem b args el).2 := by
  simp only [FluentBundle.format_pattern] at h
  rcases List.mem_flatten.mp h with ⟨errs, hmem, he⟩
  rcases List.mem_map.mp hmem with ⟨el, hel, rfl⟩
  exact ⟨el, hel, he⟩

/-- A message-reference error reported by format_pattern names a message that is
absent from the bundle: the formatter emits it only on a failed lookup. -/
theorem format_messageRef_error_absent {b : FluentBundle} {p : Pattern}
    {args : Option FluentArgs} {x : String}
    (h : FluentError.resolverError (.reference (.messageRef x none)) ∈
         (b.format_pattern p args).2) :
    b.get_message x = none := by
  rcases mem_format_pattern_errors h with ⟨el, _, hmem⟩
  cases el with
  | text s => simp [formatElem] at hmem
  | varRef id =>
    cases hv : args.bind (fun a => a.lookup id) <;> simp [formatElem, hv] at hmem
  | msgRef id =>
    cases hg : b.get_message id with
    | some m => cases hm : m.value <;> simp [formatElem, hg, hm] at hmem
    | none =>
      simp [formatElem, hg] at hmem
      rw [hmem]
      exact hg

/-- Fixture for C1: one message with a main value and no declared attributes. -/
def c1Bundle : FluentBundle := ⟨[⟨"m", some [.text "v"], []⟩]⟩

/-- Fixture for C1: the query requests attribute arguments for an attribute name
that the message does not declare. -/
def c1Query : Query :=
  { id := "m", args := [], attr_args := [("bogus", [])], with_fallback := false }

/-- C1, counterexample: the message "m" exists and the query explicitly supplies
attribute arguments for "bogus", a name that is not a declared attribute of "m",
yet Locale.query returns Ok with no error at all - no AttributeNotFound error for
("m", "bogus") is ever produced, contradicting the claim that the result must be
Err containing such an error. -/
theorem c1_undeclared_attr_arg_produces_no_error :
    (Locale.mk c1Bundle).query c1Query = .ok ⟨"m", "v", []⟩ ∧
    c1Bundle.get_message "m" = some ⟨"m", some [.text "v"], []⟩ ∧
    c1Query.attr_args.lookup "bogus" = some [] ∧
    (∀ attr ∈ (⟨"m", some [.text "v"], []⟩ : FluentMessage).attributes,
      attr.id ≠ "bogus") := by
  refine ⟨by decide, by decide, by decide, ?_⟩
  intro attr hmem
  simp at hmem

/-- C1, amended: attribute names that appear as keys of the query's attr_args but
match no declared attribute of the message are silently ignored by Locale.query -
no AttributeNotFound error is appended and the result is unchanged: two queries
for the same existing message with the same main arguments whose attr_args agree
on every declared attribute id resolve to the same result. -/
theorem c1_amended_undeclared_attr_args_ignored (l : Locale) (q q2 : Query)
    (msg : FluentMessage)
    (hmsg : l.bundle.get_message q.id = some msg)
    (hid : q2.id = q.id) (hargs : q2.args = q.args)
    (hattr : ∀ attr ∈ msg.attributes,
      q2.attr_args.lookup attr.id = q.attr_args.lookup attr.id) :
    l.query q2 = l.query q := by
  have hattrs :
      msg.attributes.map (fun attr => (attr.id, (l.resolveAttr q.id q2.attr_args attr).1))
        = msg.attributes.map (fun attr => (attr.id, (l.resolveAttr q.id q.attr_args attr).1)) := by
    apply List.map_congr_left
    intro attr hmem
    unfold Locale.resolveAttr
    rw [hattr attr hmem]
  simp only [Locale.query, hid, hargs, hmsg, hattrs]

/-- Fixture for the C1 amendment witness: a message with one declared attribute. -/
def c1wBundle : FluentBundle := ⟨[⟨"m", some [.text "v"], [⟨"a", [.text "t"]⟩]⟩]⟩

/-- Witness for the amended C1: adding an undeclared "bogus" entry to attr_args
leaves the result of Locale.query unchanged on a concrete locale. -/
theorem c1_amended_witness :
    (Locale.mk c1wBundle).query
        { id := "m", args := [], attr_args := [("bogus", []), ("a", [])],
          with_fallback := false }
      = (Locale.mk c1wBundle).query
        { id := "m", args := [], attr_args := [("a", [])], with_fallback := false } :=
  c1_amended_undeclared_attr_args_ignored (Locale.mk c1wBundle) _ _
    ⟨"m", some [.text "v"], [⟨"a", [.text "t"]⟩]⟩ (by decide) (by decide) (by decide)
    (by intro attr hmem; simp at hmem; rw [hmem]; decide)

/-- Fixture for C2: message "btn" with value "Submit" and one attribute "label"
whose pattern requires the variable x. -/
def c2Bundle : FluentBundle :=
  ⟨[⟨"btn", some [.text "Submit"], [⟨"label", [.varRef "x"]⟩]⟩]⟩

/-- Fixture for C2: explicit attribute arguments for "label" that do not supply x. -/
def c2Query : Query :=
  { id := "btn", args := [], attr_args := [("label", [])], with_fallback := false }

/-- C2, evaluation at the failing input: the query supplies explicit (empty)
arguments for attribute "label" whose pattern requires the variable x, so per the
claim the result should contain an UndefinedVariable error for x; instead
Locale.query returns Ok. The second conjunct shows that the per-attribute step does
compute exactly that error into its local error list - the source simply never
merges the loop-local list into the accumulated errors. -/
theorem c2_attr_variable_error_dropped :
    (Locale.mk c2Bundle).query c2Query =
      .ok ⟨"btn", "Submit",
        [("label", ⟨"btn", "label", some (fsi ++ "\x7b$x\x7d" ++ pdi), c2Bundle⟩)]⟩ ∧
    ((Locale.mk c2Bundle).resolveAttr "btn" c2Query.attr_args ⟨"label", [.varRef "x"]⟩).2 =
      [FluentError.resolverError (.reference (.variableRef "x"))] := by decide

/-- Fixture for C3: message "m" with an attribute "a" requiring the variable x. -/
def c3Bundle : FluentBundle :=
  ⟨[⟨"m", some [.text "t"], [⟨"a", [.varRef "x"]⟩]⟩]⟩

/-- Fixture for C3: a freshly constructed, uncached handle for attribute a of m. -/
def c3Cache : AttrCache := ⟨"m", "a", none, c3Bundle⟩

/-- C3, evaluation at the failing input: on a fresh uncached handle for the pattern
"{$x}", query(Some{x:A}) succeeds with the same string a direct Locale.query with
those attr_args resolves, but the handle comes back unchanged (the source never
writes the cache), so the immediately following query(None) re-evaluates the
pattern without arguments and returns an UndefinedVariable error instead of the
same string - the claimed round trip fails. -/
theorem c3_roundtrip_second_query_fails :
    (c3Cache.query (some [("x", "A")])).1 = .ok (fsi ++ "A" ++ pdi) ∧
    (c3Cache.query (some [("x", "A")])).2 = c3Cache ∧
    ((c3Cache.query (some [("x", "A")])).2.query none).1 =
      .error [FluentError.resolverError (.reference (.variableRef "x"))] ∧
    (Locale.mk c3Bundle).query
        { id := "m", args := [], attr_args := [("a", [("x", "A")])], with_fallback := false } =
      .ok ⟨"m", "t", [("a", ⟨"m", "a", some (fsi ++ "A" ++ pdi), c3Bundle⟩)]⟩ := by decide

/-- C4: a query whose id has no message in the locale's store returns Err with
exactly the single MessageNotFound error for that id, and this early-terminated
single-error result arises in no other case: the result equals that singleton
error list exactly when the message id is absent, so no attribute processing
contributes and no other error is accumulated. -/
theorem c4_absent_message_short_circuits (l : Locale) (q : Query) :
    l.bundle.get_message q.id = none ↔
      l.query q =
        .error [FluentError.resolverError (.reference (.messageRef q.id none))] := by
  constructor
  · intro h
    unfold Locale.query
    rw [h]
  · intro h
    cases hget : l.bundle.get_message q.id with
    | none => rfl
    | some msg =>
      exfalso
      unfold Locale.query at h
      rw [hget] at h
      cases hval : msg.value with
      | none => simp [hval] at h
      | some pattern =>
        simp only [hval] at h
        by_cases he : ((l.bundle.format_pattern pattern (some q.args)).2).isEmpty
        · simp [he] at h
        · simp [he] at h
          have hmem : FluentError.resolverError (.reference (.messageRef q.id none)) ∈
              (l.bundle.format_pattern pattern (some q.args)).2 := by
            rw [h]
            exact List.mem_singleton_self _
          have habs := format_messageRef_error_absent hmem
          rw [hget] at habs
          cases habs

/-- Fixture for C4: a locale with an empty store. -/
def c4Locale : Locale := ⟨⟨[]⟩⟩

/-- Witness for C4 at a concrete locale and query. -/
theorem c4_witness :
    c4Locale.query (Query.new "ghost") =
      .error [FluentError.resolverError (.reference (.messageRef "ghost" none))] :=
  (c4_absent_message_short_circuits c4Locale (Query.new "ghost")).mp (by decide)

/-- C5: when the requested language has no entry in the registry's mapping and the
fallback language does, Locales.query returns exactly the same result (and makes
exactly the same observer invocations) as querying the fallback language directly
with the same Query - the silent fallback substitution contributes no error. -/
theorem c5_missing_language_equals_fallback_query (ls : Locales)
    (lang : LanguageIdentifier) (q : Query) (loc : Locale)
    (habs : ls.locales.lookup lang = none)
    (hfb : ls.locales.lookup ls.fallback_lang = some loc) :
    ls.query lang q = ls.query ls.fallback_lang q := by
  unfold Locales.query Locales.selectedLocale
  rw [habs, hfb]

/-- Fixture for C5: one registered locale which is also the fallback. -/
def c5Bundle : FluentBundle := ⟨[⟨"hello", some [.text "Hello"], []⟩]⟩

/-- Fixture for C5: registry with en-US registered and en-US as fallback. -/
def c5Registry : Locales :=
  ⟨[(⟨"en", some "US"⟩, ⟨c5Bundle⟩)], ⟨"en", some "US"⟩, none⟩

/-- Witness for C5: querying unregistered fr-FR equals querying the fallback. -/
theorem c5_witness :
    c5Registry.query ⟨"fr", some "FR"⟩ (Query.new "hello") =
      c5Registry.query c5Registry.fallback_lang (Query.new "hello") :=
  c5_missing_language_equals_fallback_query c5Registry ⟨"fr", some "FR"⟩
    (Query.new "hello") ⟨c5Bundle⟩ (by decide) (by decide)

/-- C6: a handle whose cached value is Some v returns Ok v for every argument
option - including arguments different from those supplied at construction - and
leaves the handle unchanged, without re-evaluating the pattern and without
producing any error. -/
theorem c6_cached_value_returned_unconditionally (c : AttrCache)
    (args : Option FluentArgs) (v : String) (h : c.value = some v) :
    c.query args = (.ok v, c) := by
  unfold AttrCache.query
  rw [h]

/-- Fixture for C6: a cached handle over an empty bundle, so any re-evaluation
would necessarily fail - returning Ok can only come from the cache. -/
def c6Cache : AttrCache := ⟨"m", "a", some "V", ⟨[]⟩⟩

/-- Witness for C6 with arguments unrelated to any construction-time ones. -/
theorem c6_witness :
    c6Cache.query (some [("other", "args")]) = (.ok "V", c6Cache) :=
  c6_cached_value_returned_unconditionally c6Cache (some [("other", "args")]) "V"
    (by decide)

/-- Fixture for C7: a registry whose fallback language fr has no entry. -/
def c7Bundle : FluentBundle := ⟨[⟨"m", some [.text "hi"], []⟩]⟩

/-- Fixture for C7: en is registered, the fallback fr is not. -/
def c7Registry : Locales :=
  ⟨[(⟨"en", none⟩, ⟨c7Bundle⟩)], ⟨"fr", none⟩, none⟩

/-- C7, counterexample: the fallback language of this registry has no entry in the
mapping, yet a query for the registered language en is answered normally (no
panic), contradicting the claim that such a registry fails fast before any query
is served and never answers any query. -/
theorem c7_broken_fallback_still_answers :
    c7Registry.locales.lookup c7Registry.fallback_lang = none ∧
    c7Registry.query ⟨"en", none⟩ (Query.new "m") =
      some (.ok ⟨"m", "hi", []⟩, []) := by decide

/-- C7, amended: the registry does not validate the fallback invariant up front;
a query for a language that has its own entry is answered normally even when the
fallback entry is missing, and the panic (modelled as none) occurs exactly when a
query actually needs the fallback - the requested language is absent and the
fallback language is absent too. -/
theorem c7_amended_panic_only_when_fallback_needed (ls : Locales)
    (lang : LanguageIdentifier) (q : Query) :
    ((ls.locales.lookup lang).isSome → (ls.query lang q).isSome) ∧
    (ls.locales.lookup lang = none → ls.locales.lookup ls.fallback_lang = none →
      ls.query lang q = none) := by
  constructor
  · intro h
    unfold Locales.query Locales.selectedLocale
    cases hl : ls.locales.lookup lang with
    | none => rw [hl] at h; cases h
    | some loc => simp [hl]
  · intro h1 h2
    unfold Locales.query Locales.selectedLocale
    rw [h1, h2]

/-- Witness for the amended C7: on the broken-fallback registry, a query for the
registered language is answered, and a query for an unregistered language panics. -/
theorem c7_amended_witness :
    (c7Registry.query ⟨"en", none⟩ (Query.new "m")).isSome = true ∧
    c7Registry.query ⟨"de", none⟩ (Query.new "m") = none :=
  ⟨(c7_amended_panic_only_when_fallback_needed c7Registry ⟨"en", none⟩
      (Query.new "m")).1 (by decide),
   (c7_amended_panic_only_when_fallback_needed c7Registry ⟨"de", none⟩
      (Query.new "m")).2 (by decide) (by decide)⟩

/-- C8: with the selected locale fixed, Locales.query always returns that locale's
result unchanged; when an observer is set and the locale's result is Err, the
observer is invoked exactly once with exactly that error list; when the result is
Ok, or when no observer is set, no invocation happens. -/
theorem c8_observer_invoked_once_on_error (ls : Locales)
    (lang : LanguageIdentifier) (q : Query) (loc : Locale)
    (hsel : ls.selectedLocale lang = some loc) :
    (ls.query lang q).map Prod.fst = some (loc.query q) ∧
    (∀ errs, ls.on_error = some () → loc.query q = .error errs →
      ls.query lang q = some (.error errs, [errs])) ∧
    (∀ m, loc.query q = .ok m → ls.query lang q = some (.ok m, [])) ∧
    (ls.on_error = none → ls.query lang q = some (loc.query q, [])) := by
  refine ⟨?_, ?_, ?_, ?_⟩
  · unfold Locales.query
    rw [hsel]
    rfl
  · intro errs hobs herr
    unfold Locales.query
    rw [hsel]
    simp only [herr, hobs]
  · intro m hok
    unfold Locales.query
    rw [hsel]
    cases ls.on_error <;> simp [hok]
  · intro hno
    unfold Locales.query
    rw [hsel]
    cases hq : loc.query q <;> simp [hno, hq]

/-- Fixture for C8: a registry with an observer set and an empty store, so every
query fails and must be reported to the observer. -/
def c8Registry : Locales := ⟨[(⟨"en", none⟩, ⟨⟨[]⟩⟩)], ⟨"en", none⟩, some ()⟩

/-- Witness for C8: the failing query's single error list is passed to the
observer exactly once and the Err result is returned unchanged. -/
theorem c8_witness :
    c8Registry.query ⟨"en", none⟩ (Query.new "missing") =
      some (.error [FluentError.resolverError (.reference (.messageRef "missing" none))],
        [[FluentError.resolverError (.reference (.messageRef "missing" none))]]) :=
  ((c8_observer_invoked_once_on_error c8Registry ⟨"en", none⟩ (Query.new "missing")
      ⟨⟨[]⟩⟩ (by decide)).2.1)
    [FluentError.resolverError (.reference (.messageRef "missing" none))]
    rfl (by decide)

/-- C9, evaluation at the failing input: for an identifier consisting of a primary
subtag only, the claim says the normalized id is the lower-cased primary subtag
("en"); the code instead picks the whole string as its own splitter, the split of
a string by itself yields two empty pieces, and the resulting id is "-" for every
primary-only identifier. The region case, for contrast, behaves as claimed. -/
theorem c9_primary_only_id_collapses :
    Lang.ofLangid ⟨"en", none⟩ = { id := "-", name := "", flag := "", dir := "ltr" } ∧
    (Lang.ofLangid ⟨"en", none⟩).id ≠ "en" ∧
    (Lang.ofLangid ⟨"de", none⟩).id = "-" ∧
    Lang.ofLangid ⟨"en", some "US"⟩ =
      { id := "en-US", name := "English", flag := "🇺🇸", dir := "ltr" } := by decide

/-- C10: the with_fallback flag set by Query::with_fallback is never read during
resolution - for every registry, language and query, flipping the flag leaves the
result of Locales.query (selection, fallback substitution, observer invocations)
and of Locale.query unchanged. -/
theorem c10_with_fallback_flag_never_read (ls : Locales)
    (lang : LanguageIdentifier) (l : Locale) (q : Query) (b b2 : Bool) :
    ls.query lang (q.set_with_fallback b) = ls.query lang (q.set_with_fallback b2) ∧
    l.query (q.set_with_fallback b) = l.query (q.set_with_fallback b2) :=
  ⟨rfl, rfl⟩

end I18n
